import Mathlib

/-!
Verification of the WOARU-WorkaroundUltra fixture files and the
lint-fixture registry described in the repository specification.

The two Python source files (`src/test-python/main.py` and
`src/savepoints/2025-07-14-Audit-Transparency-System/test-python-error.py`)
are embedded shallowly: pure functions become Lean functions, the
dictionary argument of `process_data` becomes an explicit record that is
threaded through the call (so that absence of mutation is visible in the
type), and `print` calls become an explicit output trace.

The Fixture Registry of the specification has no implementation under
`src/`; its operations are modelled from the spec's words, each marked
`Modelled from the spec:` in its doc comment.
-/

/-- Embedding of the dictionary passed to `process_data` in
`src/test-python/main.py`.  The Python code reads the keys `"name"`,
`"email"` and `"age"` with `dict.get` defaults `""`, `""` and `0`;
an absent key is `none`. -/
structure PyDict where
  name : Option String
  email : Option String
  age : Option Int
  deriving DecidableEq, Repr

/-- Embedding of `process_data` (`src/test-python/main.py`, lines 11-14):
`result = data.get("name", "").upper() + " - " + data.get("email", "").lower()
 + " - " + str(data.get("age", 0)) + " years old"`; the function body
performs no other operation on `data`, so the state component returned by
the embedding is `data` itself. -/
def process_data (data : PyDict) : String × PyDict :=
  let result :=
    (data.name.getD "").toUpper ++ " - " ++ (data.email.getD "").toLower
      ++ " - " ++ toString (data.age.getD 0) ++ " years old"
  (result, data)

/-- Embedding of `bad_function` with the value bound to `unused_variable`
kept as a parameter (the source binds `42`), so that independence of the
result from that binding is expressible.  The body of the source is
`unused_variable = 42; x = 1 + 2; print("hello world"); if True: pass;
return x`; the `print` becomes an output trace, `if True: pass` has no
effect on any variable and contributes nothing. -/
def bad_function_at (unused_variable : Int) : Int × List String :=
  let x : Int := 1 + 2
  (x, ["hello world"])

/-- Embedding of `bad_function`
(`src/savepoints/2025-07-14-Audit-Transparency-System/test-python-error.py`,
lines 3-10): the source binds `unused_variable = 42`. -/
def bad_function : Int × List String :=
  bad_function_at 42

/-- Embedding of a `BadClass` instance.  `__init__` sets no attributes,
but Python instances carry a mutable attribute dictionary, modelled as an
arbitrary association list so that independence from instance state is
expressible. -/
structure BadClass where
  attrs : List (String × Int)
  deriving DecidableEq, Repr

/-- Embedding of `BadClass.method`
(`src/savepoints/2025-07-14-Audit-Transparency-System/test-python-error.py`,
lines 18-20): `list = [1,2,3,4,5]; return list`.  The local name `list`
shadows the Python builtin; in the embedding it is an ordinary local
binding. -/
def BadClass.method (self : BadClass) : List Int :=
  let list : List Int := [1, 2, 3, 4, 5]
  list

/-- Modelled from the spec: the `Diagnostic` record of the data model
(rule id, line, column, message); the registry implementation is absent
from `src/`, which holds only the two raw fixture files. -/
structure Diagnostic where
  rule : String
  line : Nat
  col : Nat
  message : String
  deriving DecidableEq, Repr

/-- Modelled from the spec: the (rule id, line, column) triple used for a
fixture's expected diagnostics and for set comparison in `run`. -/
structure DiagKey where
  rule : String
  line : Nat
  col : Nat
  deriving DecidableEq, Repr

/-- The location-and-rule key of a diagnostic, dropping the message. -/
def Diagnostic.key (d : Diagnostic) : DiagKey :=
  ⟨d.rule, d.line, d.col⟩

/-- Modelled from the spec: a `Fixture` of the data model — identifier,
source text and expected diagnostic set. -/
structure Fixture where
  identifier : String
  source : String
  expected : Finset DiagKey
  deriving DecidableEq

/-- Modelled from the spec: the error surfaced when registering an
identifier that is already present. -/
inductive RegistryError where
  | duplicateFixtureError
  deriving DecidableEq, Repr

/-- Modelled from the spec: the Fixture Registry, a flat in-memory
collection of fixtures. -/
structure Registry where
  fixtures : List Fixture
  deriving DecidableEq

/-- The identifiers of the registered fixtures, in registration order. -/
def Registry.identifiers (r : Registry) : List String :=
  r.fixtures.map Fixture.identifier

/-- Modelled from the spec: `register(identifier, source,
expectedDiagnostics)` fails with `DuplicateFixtureError` when the
identifier is already present, and otherwise appends the new fixture.
The failure is returned to the caller, who keeps the unmodified
registry. -/
def Registry.register (r : Registry) (identifier source : String)
    (expected : Finset DiagKey) : Except RegistryError Registry :=
  if identifier ∈ r.identifiers then
    .error .duplicateFixtureError
  else
    .ok ⟨r.fixtures ++ [⟨identifier, source, expected⟩]⟩

/-- Modelled from the spec: the per-fixture outcome in the run report —
`pass`, or `fail` with the missing and the extra diagnostics. -/
inductive FixtureResult where
  | pass
  | fail (missing extra : Finset DiagKey)
  deriving DecidableEq

/-- Modelled from the spec: compare the diagnostics the linter produced
on a fixture's source, as a set of (rule, line, column) keys, with the
fixture's expected set; equality is `pass`, otherwise `fail` carrying
the missing and the extra diagnostics. -/
def checkFixture (actual : Finset Diagnostic) (f : Fixture) : FixtureResult :=
  let actualKeys := actual.image Diagnostic.key
  if actualKeys = f.expected then FixtureResult.pass
  else FixtureResult.fail (f.expected \ actualKeys) (actualKeys \ f.expected)

/-- Modelled from the spec: the single deterministic pass of `run` over
the fixture list.  The linter capability is fallible (`Except E`): a
linter exception on any fixture's source stops the pass and propagates
unchanged. -/
def runFixtures {E : Type} (lint : String → Except E (Finset Diagnostic)) :
    List Fixture → Except E (List (String × FixtureResult))
  | [] => .ok []
  | f :: fs =>
    match lint f.source with
    | .error e => .error e
    | .ok actual =>
      match runFixtures lint fs with
      | .error e => .error e
      | .ok rest => .ok ((f.identifier, checkFixture actual f) :: rest)

/-- Modelled from the spec: `run(linter)` invokes the linter on every
fixture's source text and returns the report (one identifier/result pair
per fixture) together with the registry, which it leaves unchanged. -/
def Registry.run {E : Type} (r : Registry)
    (lint : String → Except E (Finset Diagnostic)) :
    Except E (List (String × FixtureResult) × Registry) :=
  match runFixtures lint r.fixtures with
  | .error e => .error e
  | .ok report => .ok (report, r)

/-- The example fixture of the spec's testable properties:
`{id: "unused-var", source: "x = 1\n",
  expected: {(rule:"unused-variable", line:1, col:1)}}`. -/
def exampleFixture : Fixture :=
  ⟨"unused-var", "x = 1\n", {⟨"unused-variable", 1, 1⟩}⟩

/-- A linter capability that reports no diagnostics on any source. -/
def silentLinter : String → Except Unit (Finset Diagnostic) :=
  fun _ => .ok ∅

/-- Claim C1: for every dictionary input `data`, `process_data data`
returns exactly the concatenation of the upper-cased `name` entry
(default `""`), the literal `" - "`, the lower-cased `email` entry
(default `""`), the literal `" - "`, the decimal rendering of the `age`
entry (default `0`), and the literal `" years old"`; the embedding
returns this string together with the untouched state, so this
concatenation is the only computation performed. -/
theorem process_data_concatenation (data : PyDict) :
    (process_data data).1 =
      (data.name.getD "").toUpper ++ " - " ++ (data.email.getD "").toLower
        ++ " - " ++ toString (data.age.getD 0) ++ " years old" := rfl

/-- Claim C10: `process_data` leaves its dictionary argument unchanged:
the state component of the embedding's result is the input dictionary,
so every entry present before the call is present and equal after it and
no entry is added or removed. -/
theorem process_data_preserves_input (data : PyDict) :
    (process_data data).2 = data := rfl

/-- Claim C8: every call to `bad_function` terminates (it is a total Lean
function) and returns the integer `3`; the value bound to
`unused_variable` has no effect on the returned value (the result is `3`
for every binding), and the `print` output is a separate trace component
that does not enter the returned value. -/
theorem bad_function_returns_three :
    bad_function.1 = 3 ∧ (∀ u : Int, (bad_function_at u).1 = 3) ∧
      bad_function = bad_function_at 42 :=
  ⟨rfl, fun _ => rfl, rfl⟩

/-- Claim C9: every call to `BadClass.method` returns the list
`[1, 2, 3, 4, 5]`, independent of the instance's attribute state; the
local name `list` shadowing the builtin does not change this result. -/
theorem badclass_method_constant (self : BadClass) :
    self.method = [1, 2, 3, 4, 5] := rfl

/-- Helper: a successful pass of `runFixtures` produces the fixtures'
identifiers, in order, as the first components of the report. -/
theorem runFixtures_map_fst {E : Type}
    (lint : String → Except E (Finset Diagnostic)) :
    ∀ (fs : List Fixture) (rep : List (String × FixtureResult)),
      runFixtures lint fs = Except.ok rep →
      rep.map Prod.fst = fs.map Fixture.identifier
  | [], rep, h => by
      simp only [runFixtures] at h
      injection h with h
      subst h
      rfl
  | f :: fs, rep, h => by
      simp only [runFixtures] at h
      cases hl : lint f.source with
      | error e => rw [hl] at h; exact absurd h (by simp)
      | ok actual =>
        rw [hl] at h
        cases hr : runFixtures lint fs with
        | error e => rw [hr] at h; exact absurd h (by simp)
        | ok rest =>
          rw [hr] at h
          injection h with h
          subst h
          simpa using runFixtures_map_fst lint fs rest hr

/-- Helper: when the linter succeeds on every fixture's source,
`runFixtures` succeeds, and the report contains each fixture's
identifier paired with the comparison of its actual diagnostics. -/
theorem runFixtures_all_ok {E : Type}
    (lint : String → Except E (Finset Diagnostic)) :
    ∀ fs : List Fixture, (∀ g ∈ fs, ∃ a, lint g.source = Except.ok a) →
      ∃ rep, runFixtures lint fs = Except.ok rep ∧
        ∀ g ∈ fs, ∀ a, lint g.source = Except.ok a →
          (g.identifier, checkFixture a g) ∈ rep
  | [], _ => ⟨[], rfl, by simp⟩
  | f :: fs, hall => by
      obtain ⟨a, ha⟩ := hall f (List.mem_cons_self f fs)
      obtain ⟨rest, hrest, hmem⟩ :=
        runFixtures_all_ok lint fs (fun g hg => hall g (List.mem_cons_of_mem f hg))
      refine ⟨(f.identifier, checkFixture a f) :: rest, ?_, ?_⟩
      · simp only [runFixtures, ha, hrest]
      · intro g hg b hb
        rcases List.mem_cons.mp hg with hgf | hgfs
        · subst hgf
          rw [ha] at hb
          injection hb with hb
          subst hb
          exact List.mem_cons_self _ _
        · exact List.mem_cons_of_mem _ (hmem g hgfs b hb)

/-- Helper: when the linter raises on some fixture's source,
`runFixtures` returns an error, and that error is exactly one the
linter raised on some fixture's source. -/
theorem runFixtures_error {E : Type}
    (lint : String → Except E (Finset Diagnostic)) :
    ∀ fs : List Fixture, (∃ f ∈ fs, ∃ e, lint f.source = Except.error e) →
      ∃ e, runFixtures lint fs = Except.error e ∧
        ∃ f ∈ fs, lint f.source = Except.error e
  | [], h => absurd h (by simp)
  | f :: fs, h => by
      cases hl : lint f.source with
      | error e =>
        exact ⟨e, by simp only [runFixtures, hl], f, List.mem_cons_self f fs, hl⟩
      | ok actual =>
        obtain ⟨f0, hf0, e0, he0⟩ := h
        rcases List.mem_cons.mp hf0 with hff | hf0s
        · subst hff
          rw [hl] at he0
          exact absurd he0 (by simp)
        · obtain ⟨e, hrun, f1, hf1, he1⟩ :=
            runFixtures_error lint fs ⟨f0, hf0s, e0, he0⟩
          refine ⟨e, ?_, f1, List.mem_cons_of_mem f hf1, he1⟩
          simp only [runFixtures, hl, hrun]

/-- Claim C2: for every registry state and every identifier already
present, `register` with that identifier fails with
`DuplicateFixtureError`; the failure is returned to that call alone and
produces no new registry, so the caller's existing fixtures are
unaffected. -/
theorem register_duplicate_fails (r : Registry)
    (identifier source : String) (expected : Finset DiagKey)
    (h : identifier ∈ r.identifiers) :
    r.register identifier source expected =
        Except.error RegistryError.duplicateFixtureError ∧
      ∀ r2 : Registry, r.register identifier source expected ≠ Except.ok r2 := by
  constructor
  · simp [Registry.register, h]
  · intro r2 hk
    rw [Registry.register, if_pos h] at hk
    exact absurd hk (by simp)

/-- Witness for C2 at a concrete registry already holding identifier
`"a"`. -/
theorem register_duplicate_fails_witness :
    "a" ∈ Registry.identifiers ⟨[⟨"a", "x = 1\n", ∅⟩]⟩ ∧
      Registry.register ⟨[⟨"a", "x = 1\n", ∅⟩]⟩ "a" "y = 2\n" ∅ =
        Except.error RegistryError.duplicateFixtureError :=
  ⟨by decide,
   (register_duplicate_fails ⟨[⟨"a", "x = 1\n", ∅⟩]⟩ "a" "y = 2\n" ∅
      (by decide)).1⟩

/-- Claim C3: a successful `run` returns a report whose entries are, in
order, exactly the registered fixture identifiers — no fixture is
skipped — and when those identifiers are distinct (the registry
invariant maintained by `register`) each identifier occurs exactly once
in the report. -/
theorem run_one_entry_per_identifier {E : Type} (r : Registry)
    (lint : String → Except E (Finset Diagnostic))
    (report : List (String × FixtureResult)) (r2 : Registry)
    (hok : r.run lint = Except.ok (report, r2))
    (hnodup : r.identifiers.Nodup) :
    report.map Prod.fst = r.identifiers ∧
      ∀ i ∈ r.identifiers, (report.map Prod.fst).count i = 1 := by
  have hfst : report.map Prod.fst = r.identifiers := by
    rw [Registry.run] at hok
    cases hr : runFixtures lint r.fixtures with
    | error e => rw [hr] at hok; exact absurd hok (by simp)
    | ok rep =>
      rw [hr] at hok
      injection hok with hok
      have : rep = report := congrArg Prod.fst hok
      subst this
      exact runFixtures_map_fst lint r.fixtures rep hr
  refine ⟨hfst, fun i hi => ?_⟩
  rw [hfst]
  exact List.count_eq_one_of_mem hnodup hi

/-- Witness for C3: a two-fixture registry run under the silent
linter. -/
theorem run_one_entry_per_identifier_witness :
    ([("a", FixtureResult.pass), ("b", FixtureResult.pass)].map Prod.fst =
        Registry.identifiers ⟨[⟨"a", "sa", ∅⟩, ⟨"b", "sb", ∅⟩]⟩) ∧
      ∀ i ∈ Registry.identifiers ⟨[⟨"a", "sa", ∅⟩, ⟨"b", "sb", ∅⟩]⟩,
        (([("a", FixtureResult.pass), ("b", FixtureResult.pass)] :
            List (String × FixtureResult)).map Prod.fst).count i = 1 :=
  run_one_entry_per_identifier ⟨[⟨"a", "sa", ∅⟩, ⟨"b", "sb", ∅⟩]⟩
    silentLinter [("a", FixtureResult.pass), ("b", FixtureResult.pass)]
    ⟨[⟨"a", "sa", ∅⟩, ⟨"b", "sb", ∅⟩]⟩
    (by simp [Registry.run, runFixtures, silentLinter, checkFixture])
    (by decide)

/-- Claim C4: when `run` succeeds, it hands back the registry unchanged,
and invoking `run` again on that registry, with no intervening state
change, yields the identical report (and again the unchanged
registry). -/
theorem run_idempotent {E : Type} (r : Registry)
    (lint : String → Except E (Finset Diagnostic))
    (report : List (String × FixtureResult)) (r2 : Registry)
    (hok : r.run lint = Except.ok (report, r2)) :
    r2 = r ∧ r2.run lint = Except.ok (report, r2) := by
  rw [Registry.run] at hok
  cases hr : runFixtures lint r.fixtures with
  | error e => rw [hr] at hok; exact absurd hok (by simp)
  | ok rep =>
    rw [hr] at hok
    injection hok with hok
    have hrep : rep = report := congrArg Prod.fst hok
    have hreg : r = r2 := congrArg Prod.snd hok
    subst hrep
    subst hreg
    exact ⟨rfl, by rw [Registry.run, hr]⟩

/-- Witness for C4: rerunning the two-fixture registry under the silent
linter reproduces the same report. -/
theorem run_idempotent_witness :
    (⟨[⟨"a", "sa", ∅⟩, ⟨"b", "sb", ∅⟩]⟩ : Registry) =
        ⟨[⟨"a", "sa", ∅⟩, ⟨"b", "sb", ∅⟩]⟩ ∧
      Registry.run ⟨[⟨"a", "sa", ∅⟩, ⟨"b", "sb", ∅⟩]⟩ silentLinter =
        Except.ok ([("a", FixtureResult.pass), ("b", FixtureResult.pass)],
          ⟨[⟨"a", "sa", ∅⟩, ⟨"b", "sb", ∅⟩]⟩) :=
  run_idempotent ⟨[⟨"a", "sa", ∅⟩, ⟨"b", "sb", ∅⟩]⟩ silentLinter
    [("a", FixtureResult.pass), ("b", FixtureResult.pass)]
    ⟨[⟨"a", "sa", ∅⟩, ⟨"b", "sb", ∅⟩]⟩
    (by simp [Registry.run, runFixtures, silentLinter, checkFixture])

/-- Claim C5: when the linter succeeds on every fixture but its
diagnostic set on some fixture differs from that fixture's expected set,
`run` does not raise: it returns a report, and that report records the
mismatched fixture as a failure carrying the missing and the extra
diagnostics. -/
theorem run_mismatch_reported {E : Type} (r : Registry)
    (lint : String → Except E (Finset Diagnostic)) (f : Fixture)
    (actual : Finset Diagnostic)
    (hall : ∀ g ∈ r.fixtures, ∃ a, lint g.source = Except.ok a)
    (hf : f ∈ r.fixtures) (ha : lint f.source = Except.ok actual)
    (hne : actual.image Diagnostic.key ≠ f.expected) :
    ∃ report, r.run lint = Except.ok (report, r) ∧
      (f.identifier,
        FixtureResult.fail (f.expected \ actual.image Diagnostic.key)
          (actual.image Diagnostic.key \ f.expected)) ∈ report := by
  obtain ⟨rep, hrep, hmem⟩ := runFixtures_all_ok lint r.fixtures hall
  refine ⟨rep, ?_, ?_⟩
  · rw [Registry.run, hrep]
  · have := hmem f hf actual ha
    rwa [checkFixture, if_neg hne] at this

/-- Witness for C5: the spec's example fixture run under the silent
linter is reported as a failure, not raised. -/
theorem run_mismatch_reported_witness :
    ∃ report,
      Registry.run ⟨[exampleFixture]⟩ silentLinter =
          Except.ok (report, ⟨[exampleFixture]⟩) ∧
        ("unused-var",
          FixtureResult.fail
            (exampleFixture.expected \
              Finset.image Diagnostic.key ∅)
            (Finset.image Diagnostic.key ∅ \
              exampleFixture.expected)) ∈ report :=
  run_mismatch_reported ⟨[exampleFixture]⟩ silentLinter exampleFixture ∅
    (fun g _ => ⟨∅, rfl⟩) (List.mem_cons_self _ _) rfl
    (by simp [Finset.image_empty, exampleFixture,
          (Finset.singleton_ne_empty _).symm])

/-- Claim C6: when the linter capability raises on some registered
fixture's source text, `run` returns an error, and that error is exactly
an exception the linter raised on some fixture's source — it is neither
caught, wrapped, nor turned into a fixture-level failure. -/
theorem run_propagates_linter_error {E : Type} (r : Registry)
    (lint : String → Except E (Finset Diagnostic))
    (h : ∃ f ∈ r.fixtures, ∃ e, lint f.source = Except.error e) :
    ∃ e, r.run lint = Except.error e ∧
      ∃ f ∈ r.fixtures, lint f.source = Except.error e := by
  obtain ⟨e, hrun, f, hf, he⟩ := runFixtures_error lint r.fixtures h
  exact ⟨e, by rw [Registry.run, hrun], f, hf, he⟩

/-- Witness for C6: a linter that raises `"boom"` on every source makes
`run` on a one-fixture registry return exactly that error. -/
theorem run_propagates_linter_error_witness :
    ∃ e, Registry.run ⟨[exampleFixture]⟩
        (fun _ => (Except.error "boom" : Except String (Finset Diagnostic))) =
          Except.error e ∧
      ∃ f ∈ (⟨[exampleFixture]⟩ : Registry).fixtures,
        (fun _ => (Except.error "boom" : Except String (Finset Diagnostic)))
          f.source = Except.error e :=
  run_propagates_linter_error ⟨[exampleFixture]⟩
    (fun _ => Except.error "boom")
    ⟨exampleFixture, List.mem_cons_self _ _, "boom", rfl⟩

/-- Claim C7: the spec's example fixture `unused-var` run against a
linter reporting no diagnostics yields
`fail(missing = \x7b(unused-variable, 1, 1)\x7d, extra = ∅)`; and any
fixture whose expected diagnostics exactly equal the linter's output is
reported as `pass`. -/
theorem run_example_results :
    Registry.run ⟨[exampleFixture]⟩ silentLinter =
        Except.ok ([("unused-var",
          FixtureResult.fail {⟨"unused-variable", 1, 1⟩} ∅)],
          ⟨[exampleFixture]⟩) ∧
      ∀ {E : Type} (f : Fixture)
        (lint : String → Except E (Finset Diagnostic))
        (actual : Finset Diagnostic),
        lint f.source = Except.ok actual →
        actual.image Diagnostic.key = f.expected →
        Registry.run ⟨[f]⟩ lint =
          Except.ok ([(f.identifier, FixtureResult.pass)], ⟨[f]⟩) := by
  constructor
  · have hc : checkFixture ∅ exampleFixture =
        FixtureResult.fail {⟨"unused-variable", 1, 1⟩} ∅ := by
      rw [checkFixture]
      simp only [Finset.image_empty, exampleFixture]
      rw [if_neg (Ne.symm (Finset.singleton_ne_empty _))]
      rw [Finset.sdiff_empty, Finset.empty_sdiff]
    simp only [Registry.run, runFixtures, silentLinter, hc]
    rfl
  · intro E f lint actual ha heq
    have hc : checkFixture actual f = FixtureResult.pass := by
      rw [checkFixture]
      exact if_pos heq
    simp only [Registry.run, runFixtures, ha, hc]

/-- Witness for C7: a linter reporting exactly the expected diagnostic
makes the example fixture pass. -/
theorem run_example_results_witness :
    Registry.run ⟨[exampleFixture]⟩
        (fun _ => (Except.ok {⟨"unused-variable", 1, 1, ""⟩} :
          Except Unit (Finset Diagnostic))) =
      Except.ok ([("unused-var", FixtureResult.pass)], ⟨[exampleFixture]⟩) :=
  run_example_results.2 exampleFixture
    (fun _ => Except.ok {⟨"unused-variable", 1, 1, ""⟩}) _ rfl
    (by simp [Finset.image_singleton, Diagnostic.key, exampleFixture])
